import Mathlib

/-!
Shallow embedding of the llama_viz run controller and coercion layer.

Sources embedded:
  - src/llama_viz/utils.py       (THEMES, get_external_stylesheets,
                                  parse_input_value, format_output_value)
  - src/llama_viz/components.py  (widget property selection, only as needed)
  - src/llama_viz/viz.py         (the `_run_workflow` background callback and
                                  its `run_stream_events` event loop)
  - src/llama_viz/dash_backend.py (the non-streaming `_run_workflow` output
                                  assembly, for the whole-record fallback)

External collaborators (Python builtins `int`/`float`/`str`/`json`, pydantic
`parse_raw`/serialization, `datetime`, the llama_index workflow engine, and
Dash delivery) are modelled as explicit parameters or as small total
functions; where a Python builtin's exact textual output is irrelevant to
every claim (float repr, container repr, JSON string escaping) the model
uses a simple total stand-in and says so in a comment.
-/

/-- Closed set of value-type tags. Mirrors the Python type hints the source
branches on: `str`, `int`, `float`, `bool`, `datetime.date`, `list`-like,
`dict`-like, pydantic `BaseModel` subclasses, `pd.DataFrame`, plotly
`Figure`, `HttpUrl`, and the default arm for anything else. -/
inductive TypeTag where
  | string
  | integer
  | float
  | boolean
  | date
  | stringList
  | objectMap
  | structuredRecord
  | tabular
  | figure
  | url
  | unknown
deriving DecidableEq, Repr

/-- Raw widget value as delivered by a Dash component: `None`, a text string
(text boxes, JSON text areas, date picker), a number (numeric inputs,
modelled as a rational), or a checkbox boolean. -/
inductive Raw where
  | absent
  | text (s : String)
  | number (q : Rat)
  | toggle (b : Bool)
deriving DecidableEq

/-- Python runtime values flowing through the controller. Floats are
modelled as rationals (no floating-point claims are in scope). `obj` is an
object carrying attributes (a pydantic event/model instance, read through
`getattr`), `dict` a plain mapping, `frame` a DataFrame as its row records,
and `boxed` any other foreign value identified by a label. -/
inductive Value where
  | str (s : String)
  | int (n : Int)
  | float (q : Rat)
  | bool (b : Bool)
  | date (y m d : Nat)
  | list (elems : List Value)
  | dict (fields : List (String × Value))
  | obj (fields : List (String × Value))
  | frame (rows : List (List (String × Value)))
  | boxed (tag : String)

/-- Zero-padded two-digit rendering used for ISO dates. -/
def pad2 (n : Nat) : String :=
  if n < 10 then "0" ++ toString n else toString n

/-- ISO `YYYY-MM-DD` rendering of a date value (Python `str(date)`). -/
def isoDate (y m d : Nat) : String :=
  toString y ++ "-" ++ pad2 m ++ "-" ++ pad2 d

/-- Decimal-ish rendering of a rational standing in for Python float repr.
No claim inspects the text of a formatted float, so the exact digits of
Python's shortest-roundtrip repr are abstracted; integral rationals render
as Python does ("3.0"). -/
def ratStr (q : Rat) : String :=
  if q.den = 1 then toString q.num ++ ".0"
  else toString q.num ++ "/" ++ toString q.den

/-- Python `str(value)` on the values the controller stringifies. Scalar
cases are exact (note `str(True) = "True"`); the repr of containers and
foreign objects is abstracted to a labelled placeholder, since no claim
reads those strings. -/
def pyStr : Value → String
  | Value.str s => s
  | Value.int n => toString n
  | Value.float q => ratStr q
  | Value.bool b => if b then "True" else "False"
  | Value.date y m d => isoDate y m d
  | Value.list _ => "<list>"
  | Value.dict _ => "<dict>"
  | Value.obj _ => "<object>"
  | Value.frame _ => "<DataFrame>"
  | Value.boxed t => "<" ++ t ++ ">"

/-- JSON string quoting; escaping of special characters is abstracted (no
claim exercises it). -/
def jsonQuote (s : String) : String :=
  "\"" ++ s ++ "\""

/-- Comma-join for JSON rendering. -/
def joinComma : List String → String
  | [] => ""
  | [s] => s
  | s :: rest => s ++ ", " ++ joinComma rest

mutual

/-- Total model of `json.dumps(value, indent=2, default=str)`: JSON text
with non-serializable leaves stringified. Indentation is abstracted to a
flat rendering (no claim reads whitespace). Distinct from `pyStr`: JSON
booleans are lowercase. -/
def pyJsonDumps : Value → String
  | Value.str s => jsonQuote s
  | Value.int n => toString n
  | Value.float q => ratStr q
  | Value.bool b => if b then "true" else "false"
  | Value.date y m d => jsonQuote (isoDate y m d)
  | Value.list es => "[" ++ joinComma (dumpsList es) ++ "]"
  | Value.dict fs => "\x7b" ++ joinComma (dumpsFields fs) ++ "\x7d"
  | Value.obj fs => "\x7b" ++ joinComma (dumpsFields fs) ++ "\x7d"
  | Value.frame _ => jsonQuote "<DataFrame>"
  | Value.boxed t => jsonQuote ("<" ++ t ++ ">")

/-- JSON rendering of a list of values. -/
def dumpsList : List Value → List String
  | [] => []
  | v :: vs => pyJsonDumps v :: dumpsList vs

/-- JSON rendering of key/value fields. -/
def dumpsFields : List (String × Value) → List String
  | [] => []
  | (k, v) :: fs => (jsonQuote k ++ ": " ++ pyJsonDumps v) :: dumpsFields fs

end

/-- Python truthiness of a raw widget value (`if input_values[i]:` and
`bool(value)`): None, "", 0 and False are falsy. -/
def Raw.truthy : Raw → Bool
  | Raw.absent => false
  | Raw.text s => s ≠ ""
  | Raw.number q => q ≠ 0
  | Raw.toggle b => b

/-- A raw widget value seen as a Python value (the `return value` pass
through arms of `parse_input_value`). The `absent` case is unreachable
there (empty input is handled first); it maps to a boxed `None`. -/
def rawAsValue : Raw → Value
  | Raw.absent => Value.boxed "None"
  | Raw.text s => Value.str s
  | Raw.number q => Value.float q
  | Raw.toggle b => Value.bool b

/-- Python `str(value)` applied to a raw widget value. -/
def pyStrRaw (r : Raw) : String :=
  pyStr (rawAsValue r)

/-- Truncation toward zero, the behaviour of Python `int()` on numbers. -/
def ratTruncToInt (q : Rat) : Int :=
  if 0 ≤ q.num then ((q.num.toNat / q.den : Nat) : Int)
  else -(((-q.num).toNat / q.den : Nat) : Int)

/-- External primitives used by `parse_input_value` in src/llama_viz/utils.py:
Python `int(str)` / `float(str)` (None = raised), `json.loads`
(None = JSONDecodeError), pydantic `Model.parse_raw` (None = any exception),
`datetime.strptime(s, "%Y-%m-%d")` (None = ValueError) and
`datetime.date.today()`. These are library calls outside the repository, so
they are parameters of the embedding. -/
structure ParsePrims where
  pyIntOfStr : String → Option Int
  pyFloatOfStr : String → Option Rat
  jsonLoads : String → Option Value
  parseRawRecord : String → Option Value
  strpDate : String → Option (Nat × Nat × Nat)
  today : Nat × Nat × Nat

/-- Python `int(value)` over a raw widget value: strings go through the
string parser, numbers truncate toward zero, booleans become 0/1, and
`None` raises (modelled as Option.none; the caller catches and yields 0). -/
def pyIntOfRaw (prims : ParsePrims) : Raw → Option Int
  | Raw.absent => Option.none
  | Raw.text s => prims.pyIntOfStr s
  | Raw.number q => some (ratTruncToInt q)
  | Raw.toggle b => some (if b then 1 else 0)

/-- Python `float(value)` over a raw widget value, see `pyIntOfRaw`. -/
def pyFloatOfRaw (prims : ParsePrims) : Raw → Option Rat
  | Raw.absent => Option.none
  | Raw.text s => prims.pyFloatOfStr s
  | Raw.number q => some q
  | Raw.toggle b => some (if b then 1 else 0)

/-- Date value from a (year, month, day) triple. -/
def dateValue (t : Nat × Nat × Nat) : Value :=
  Value.date t.1 t.2.1 t.2.2

/-- Embedding of `parse_input_value(value, type_hint)` from
src/llama_viz/utils.py lines 73-137 (identical to
`DashBackend._parse_input_value`). Branch for branch:
empty/None short-circuit (bool coerces to False); `str`; `int` with the
try/except yielding 0; `float` likewise yielding 0.0; `bool(value)`;
`datetime.date` via strptime with today() on failure, non-strings passed
through; list-like and dict-like via `json.loads` with []/{} on
JSONDecodeError/TypeError (TypeError covers non-string raws); pydantic
models via `parse_raw` with None on any exception (non-string raws raise,
hence None); anything else returned as is. Exceptions are modelled by the
Option results of the primitives, so the function is total — the code never
raises for any tag. -/
def parse_input_value (prims : ParsePrims) (value : Raw) (type_hint : TypeTag) :
    Option Value :=
  if value = Raw.absent ∨ value = Raw.text "" then
    if type_hint = TypeTag.boolean then some (Value.bool false) else Option.none
  else
    match type_hint with
    | TypeTag.string => some (Value.str (pyStrRaw value))
    | TypeTag.integer => some (Value.int ((pyIntOfRaw prims value).getD 0))
    | TypeTag.float => some (Value.float ((pyFloatOfRaw prims value).getD 0))
    | TypeTag.boolean => some (Value.bool value.truthy)
    | TypeTag.date =>
      match value with
      | Raw.text s =>
        match prims.strpDate s with
        | some t => some (dateValue t)
        | Option.none => some (dateValue prims.today)
      | v => some (rawAsValue v)
    | TypeTag.stringList =>
      match value with
      | Raw.text s => some ((prims.jsonLoads s).getD (Value.list []))
      | _ => some (Value.list [])
    | TypeTag.objectMap =>
      match value with
      | Raw.text s => some ((prims.jsonLoads s).getD (Value.dict []))
      | _ => some (Value.dict [])
    | TypeTag.structuredRecord =>
      match value with
      | Raw.text s => prims.parseRawRecord s
      | _ => Option.none
    | TypeTag.tabular => some (rawAsValue value)
    | TypeTag.figure => some (rawAsValue value)
    | TypeTag.url => some (rawAsValue value)
    | TypeTag.unknown => some (rawAsValue value)

/-- Embedding of `format_output_value(value, type_hint)` from
src/llama_viz/utils.py lines 140-183 (identical to
`DashBackend._format_output_value`). `None` formats to "" for `str` and
stays None otherwise; `str`/`int`/`float`/`bool` stringify via `str()`;
`HttpUrl` stringifies; `pd.DataFrame` becomes its `to_dict("records")` rows
or [] when the value is not a DataFrame; `Figure` passes through unchanged;
dict/list values or tags serialize with `json.dumps(..., default=str)`;
every remaining case tries `value.json()` / `model_dump_json()` /
`json.dumps(..., default=str)` with `str(value)` as last resort — all
JSON-text producers, modelled by the same total encoder, so the `except`
arms are unreachable in the model and the function never raises. -/
def format_output_value (value : Option Value) (type_hint : TypeTag) :
    Option Value :=
  match value with
  | Option.none =>
    if type_hint = TypeTag.string then some (Value.str "") else Option.none
  | some v =>
    match type_hint with
    | TypeTag.string => some (Value.str (pyStr v))
    | TypeTag.integer => some (Value.str (pyStr v))
    | TypeTag.float => some (Value.str (pyStr v))
    | TypeTag.boolean => some (Value.str (pyStr v))
    | TypeTag.url => some (Value.str (pyStr v))
    | TypeTag.tabular =>
      match v with
      | Value.frame rows => some (Value.list (rows.map Value.dict))
      | _ => some (Value.list [])
    | TypeTag.figure => some v
    | TypeTag.stringList => some (Value.str (pyJsonDumps v))
    | TypeTag.objectMap => some (Value.str (pyJsonDumps v))
    | _ => some (Value.str (pyJsonDumps v))

/-- The THEMES table from src/llama_viz/utils.py lines 11-34. The
`dbc.themes.*` constants are external stylesheet URLs; they are modelled by
their names, which preserves exactly the key set and distinctness the
lookup logic depends on. -/
def THEMES : List (String × String) :=
  [ ("bootstrap", "dbc.themes.BOOTSTRAP")
  , ("cerulean", "dbc.themes.CERULEAN")
  , ("cosmo", "dbc.themes.COSMO")
  , ("cyborg", "dbc.themes.CYBORG")
  , ("darkly", "dbc.themes.DARKLY")
  , ("flatly", "dbc.themes.FLATLY")
  , ("journal", "dbc.themes.JOURNAL")
  , ("litera", "dbc.themes.LITERA")
  , ("lumen", "dbc.themes.LUMEN")
  , ("lux", "dbc.themes.LUX")
  , ("materia", "dbc.themes.MATERIA")
  , ("minty", "dbc.themes.MINTY")
  , ("pulse", "dbc.themes.PULSE")
  , ("sandstone", "dbc.themes.SANDSTONE")
  , ("simplex", "dbc.themes.SIMPLEX")
  , ("sketchy", "dbc.themes.SKETCHY")
  , ("slate", "dbc.themes.SLATE")
  , ("solar", "dbc.themes.SOLAR")
  , ("spacelab", "dbc.themes.SPACELAB")
  , ("superhero", "dbc.themes.SUPERHERO")
  , ("united", "dbc.themes.UNITED")
  , ("yeti", "dbc.themes.YETI")
  ]

/-- Python `str.lower()` as used on theme names, modelled character-wise
(theme keys are ASCII). Defined over the character list so that concrete
lookups compute. -/
def pyLower (s : String) : String :=
  String.mk (s.data.map Char.toLower)

/-- Embedding of `get_external_stylesheets(theme_name)` from
src/llama_viz/utils.py lines 66-70: case-insensitive lookup, raising
`ValueError(f"Unknown theme: <theme_name>")` (modelled as Except.error) when
the lowercased name is not a key. -/
def get_external_stylesheets (theme_name : String) :
    Except String (List String) :=
  match THEMES.lookup (pyLower theme_name) with
  | some stylesheet => Except.ok [stylesheet]
  | Option.none => Except.error ("Unknown theme: " ++ theme_name)

/-- The part of a constructed Viz app relevant to theme validation. -/
structure VizApp where
  stylesheets : List String
  theme : String
  inputs : List (String × TypeTag)
  outputs : List (String × TypeTag)

/-- Embedding of the head of `Viz.__init__` (src/llama_viz/viz.py line 37):
`get_external_stylesheets(theme)` is evaluated first, inside the `Dash(...)`
constructor call, so an unknown theme propagates its ValueError before any
introspection or UI construction happens; a known theme yields the app. -/
def viz_init (theme : String) (inputs outputs : List (String × TypeTag)) :
    Except String VizApp :=
  match get_external_stylesheets theme with
  | Except.error e => Except.error e
  | Except.ok ss => Except.ok (VizApp.mk ss theme inputs outputs)

/-- Execution-context identity (llama_index `Context`), opaque to the
controller; modelled by a numeric identifier. -/
abbrev Ctx := Nat

/-- Input map handed to `workflow.run(**run_params)` (the `ctx` entry is
modelled as a separate argument of the engine). -/
abbrev RunParams := List (String × Value)

/-- Events observed through `handler.stream_events()`. The controller
distinguishes them by class tag: `StopEvent` (skipped with `continue`; the
stream terminates after it), `InputRequiredEvent` (carries the prompt), and
everything else — rendered into a card from its class name and its
`model_dump()` JSON, which the model carries as a payload string since the
serialization itself is external pydantic code. -/
inductive WEvent where
  | stop
  | inputRequired (prompt : String)
  | other (etype : String) (payload : String)
deriving DecidableEq, Repr

/-- Events that get a card: neither StopEvent nor InputRequiredEvent. -/
def WEvent.isRenderable : WEvent → Bool
  | WEvent.other _ _ => true
  | _ => false

/-- A rendered event card, as appended to the events list: the event class
name and its serialized JSON. The wall-clock timestamp shown on the card is
real time and is not modelled. -/
structure Card where
  etype : String
  payload : String
deriving DecidableEq, Repr

/-- Rendering of one streamed event into its card
(src/llama_viz/viz.py lines 450-499). -/
def renderCardEv : WEvent → Card
  | WEvent.other t p => Card.mk t p
  | WEvent.stop => Card.mk "StopEvent" ""
  | WEvent.inputRequired p => Card.mk "InputRequiredEvent" p

/-- The `events-data` store: rendered cards plus the running counter. -/
structure EventsData where
  events : List Card
  count : Nat
deriving DecidableEq, Repr

/-- One observable action of the event loop: consuming the next event from
the stream, or pushing a snapshot of the events store to the UI via
`set_props` (the incremental channel, independent of the final callback
output). -/
inductive LoopAct where
  | consume (e : WEvent)
  | push (d : EventsData)
deriving DecidableEq, Repr

/-- The `async for event in handler.stream_events()` loop of
`run_stream_events` (src/llama_viz/viz.py lines 444-505), as a pure fold
over the finite event stream. Returns the interleaved consume/push trace,
the final events list (the mutated `events_list`), the final local counter,
and whether the loop ended by `return None` on InputRequiredEvent (true)
or by stream exhaustion after Stop (false — then `await handler` yields the
result). StopEvent is consumed and skipped (`continue`); every other event
appends one card and immediately issues exactly one `set_props` push with
the updated list and counter, before the next event is pulled. -/
def streamLoop : List WEvent → List Card → Nat →
    List LoopAct × List Card × Nat × Bool
  | [], acc, n => ([], acc, n, false)
  | WEvent.stop :: rest, acc, n =>
    let r := streamLoop rest acc n
    (LoopAct.consume WEvent.stop :: r.1, r.2)
  | WEvent.inputRequired p :: _, acc, n =>
    ([LoopAct.consume (WEvent.inputRequired p)], acc, n, true)
  | WEvent.other t p :: rest, acc, n =>
    let c := renderCardEv (WEvent.other t p)
    let r := streamLoop rest (acc ++ [c]) (n + 1)
    (LoopAct.consume (WEvent.other t p) ::
       LoopAct.push (EventsData.mk (acc ++ [c]) (n + 1)) :: r.1, r.2)

/-- Whether the loop would pause: true iff an InputRequiredEvent occurs in
the stream (Stop and renderable events are consumed past). -/
def streamPauses : List WEvent → Bool
  | [] => false
  | WEvent.inputRequired _ :: _ => true
  | _ :: rest => streamPauses rest

/-- An execution handler as obtained from `workflow.run(...)`: its context,
the finite event stream it will yield, and the final result of
`await handler`. -/
structure Handler where
  ctx : Ctx
  stream : List WEvent
  result : Value

/-- The external workflow engine: `workflow.run(**run_params)` with the
optional stored context passed through `run_params["ctx"]`. Everything about
step execution is behind this function. -/
abbrev Engine := RunParams → Option Ctx → Handler

/-- Which Dash input fired the callback (`ctx.triggered[0]["prop_id"]`):
the Run Workflow button or the modal Submit button. -/
inductive Trigger where
  | buttonRun
  | modalSubmit
deriving DecidableEq, Repr

/-- Chat transcript entries: a user card (query echo or modal response) or
a workflow response card with its rendered parts. HTML wrappers are
abstracted to their text content. -/
inductive ChatMsg where
  | user (content : String)
  | response (parts : List String)

/-- Static per-Viz data: the introspected ordered input and output field
schemas (`self._inputs`, `self._outputs`). -/
structure VizConfig where
  inputs : List (String × TypeTag)
  outputs : List (String × TypeTag)

/-- Arguments of one `_run_workflow` callback invocation: the trigger, the
current input-widget values, the modal text (a Dash State, present whatever
the trigger was), and the browser-held chat and events stores. -/
structure CallbackArgs where
  trigger : Option Trigger
  inputValues : List Raw
  modalInput : Option String
  chatMessages : List ChatMsg
  eventsData : EventsData

/-- The `query_data` dict of the button-run branch
(src/llama_viz/viz.py lines 365-370): fields whose raw value is truthy and
whose parsed value is not None. -/
def collectQueryData (prims : ParsePrims) (inputs : List (String × TypeTag))
    (vals : List Raw) : List (String × Value) :=
  (inputs.zip vals).filterMap fun p =>
    if p.2.truthy then
      (parse_input_value prims p.2 p.1.2).map fun v => (p.1.1, v)
    else Option.none

/-- The `run_params` dict (src/llama_viz/viz.py lines 421-426): every
field re-parsed from the current widget values, keeping non-None results.
Unlike `query_data` there is no truthiness filter. This runs on every
trigger, including modal submits. -/
def collectRunParams (prims : ParsePrims) (inputs : List (String × TypeTag))
    (vals : List Raw) : RunParams :=
  (inputs.zip vals).filterMap fun p =>
    (parse_input_value prims p.2 p.1.2).map fun v => (p.1.1, v)

/-- Content of the user chat card on button-run
(src/llama_viz/viz.py lines 374-386): the single value stringified when
there is exactly one input, otherwise the JSON dump of the whole map. -/
def queryChatContent (queryData : List (String × Value)) : String :=
  match queryData with
  | [single] => pyStr single.2
  | qd => pyJsonDumps (Value.dict qd)

/-- Python truthiness of a result value (`if result:` in the simple-output
branch). `bool(DataFrame)` raising is out of modelled scope; rows decide. -/
def valueTruthy : Value → Bool
  | Value.str s => s ≠ ""
  | Value.int n => n ≠ 0
  | Value.float q => q ≠ 0
  | Value.bool b => b
  | Value.date _ _ _ => true
  | Value.list es => ¬ es.isEmpty
  | Value.dict fs => ¬ fs.isEmpty
  | Value.obj fs => ¬ fs.isEmpty
  | Value.frame rows => ¬ rows.isEmpty
  | Value.boxed _ => true

/-- Output-field extraction of the multi-output branch
(src/llama_viz/viz.py lines 541-546): `getattr` when the result object has
the attribute, dict lookup when the result is a dict containing the key,
None otherwise. (`hasattr` hits on dicts for method names such as "keys";
field names shadowing dict methods are out of modelled scope.) -/
def extractViz (res : Value) (name : String) : Option Value :=
  match res with
  | Value.obj fs => fs.lookup name
  | Value.dict fs => fs.lookup name
  | _ => Option.none

/-- Whether the value rendered is a dict or a list
(`isinstance(output_value, (dict, list))`). -/
def Value.isContainer : Value → Bool
  | Value.dict _ => true
  | Value.list _ => true
  | _ => false

/-- Text shown for a formatted output in a chat part. -/
def displayText : Option Value → String
  | some (Value.str s) => s
  | some v => pyStr v
  | Option.none => ""

/-- One chat response part of the multi-output branch
(src/llama_viz/viz.py lines 556-580): string outputs show the formatted
text (labelled when there are several outputs); dict/list values show a
labelled JSON block; anything else a labelled `str(output_value)`. -/
def respPart (nOut : Nat) (name : String) (tag : TypeTag) (ov : Value)
    (formatted : Option Value) : String :=
  if tag = TypeTag.string then
    (if nOut > 1 then name.capitalize ++ ": " else "") ++ displayText formatted
  else if ov.isContainer then
    name.capitalize ++ ": " ++
      (match formatted with
       | some (Value.str s) => s
       | _ => pyJsonDumps ov)
  else
    name.capitalize ++ ": " ++ pyStr ov

/-- Whether the declared outputs are the synthetic simple shape
(`len(self._outputs) == 1 and "result" in self._outputs`). -/
def isSingleResult (outputs : List (String × TypeTag)) : Bool :=
  outputs.length == 1 && (outputs.lookup "result").isSome

/-- Per-field step of the streaming controller's multi-output assembly
(src/llama_viz/viz.py lines 539-580), folded over the declared outputs:
extract the field from the result (None when absent), format it, append it
to the output values, and add a chat response part (setting `has_response`)
exactly when the extracted value is not None. The accumulated triple is
(output values, response parts, has_response). -/
def vizOutputStep (res : Value) (nOut : Nat)
    (acc : List (Option Value) × List String × Bool) (p : String × TypeTag) :
    List (Option Value) × List String × Bool :=
  let ov := extractViz res p.1
  let formatted := format_output_value ov p.2
  match ov with
  | Option.none => (acc.1 ++ [formatted], acc.2.1, acc.2.2)
  | some v =>
    (acc.1 ++ [formatted],
     acc.2.1 ++ [respPart nOut p.1 p.2 v formatted],
     true)

/-- Output assembly around `vizOutputStep`: the simple single-"result"
branch (src/llama_viz/viz.py lines 523-536) or the fold of `vizOutputStep`
over the declared outputs (lines 539-580). -/
def vizComputeOutputs (outputs : List (String × TypeTag)) (res : Value) :
    List (Option Value) × List String × Bool :=
  if isSingleResult outputs then
    let tag := ((outputs.lookup "result").getD TypeTag.string)
    let outputVal := format_output_value (some res) tag
    if valueTruthy res then
      (if tag = TypeTag.string then
        ([outputVal], [displayText outputVal], true)
       else if res.isContainer then
        ([outputVal], [pyJsonDumps res], true)
       else
        ([outputVal], [pyStr res], true))
    else
      ([outputVal], [], false)
  else
    outputs.foldl (vizOutputStep res outputs.length) ([], [], false)

/-- Output assembly of the non-streaming DashBackend callback
(src/llama_viz/dash_backend.py lines 546-563): same extraction, but when a
field is neither an attribute nor a dict key the WHOLE result is used
(`output_value = result`) before formatting. -/
def dashOutputValues (outputs : List (String × TypeTag)) (res : Value) :
    List (Option Value) :=
  if isSingleResult outputs then
    [format_output_value (some res) ((outputs.lookup "result").getD TypeTag.string)]
  else
    outputs.map fun p =>
      format_output_value (some ((extractViz res p.1).getD res)) p.2

/-- Everything one `_run_workflow` invocation computes, decomposed: the new
server-side `self._ctx`; the input-clearing Nones; the per-output formatted
values (empty when the run paused — the source appends output entries only
under `if result is not None`, so a paused run returns a shorter
output_values list than the callback declares); the modal flag; the chat
and events stores as returned; the consume/push trace of the event loop;
and the instrumentation of external effects — each `workflow.run` call with
its parameters and the context it was handed, and each
`send_event(HumanResponseEvent(...))` injection with the target context. -/
structure CallbackOutcome where
  selfCtx : Option Ctx
  inputClears : List (Option Value)
  outputVals : List (Option Value)
  modalOpen : Bool
  chat : List ChatMsg
  eventsData : EventsData
  trace : List LoopAct
  engineCalls : List (RunParams × Option Ctx)
  injections : List (Ctx × String)

/-- Embedding of the `_run_workflow` background callback of
src/llama_viz/viz.py lines 343-611. `None` trigger raises PreventUpdate
(modelled as Option.none). Button-run branch: reset `self._ctx` to None,
reset the events store, and append a user chat card when `query_data` is
non-empty. Modal-submit branch: append the modal text as a user chat card
when non-empty; `self._ctx` and the events store are kept. Then, for BOTH
branches: re-parse all input fields into `run_params`; call
`workflow.run(**run_params)` with the (possibly reset) stored context;
inject `HumanResponseEvent(modal_text)` into the new handler's context
whenever the modal text is non-empty (also on button-run with leftover
modal text); set `self._ctx = handler.ctx`; drain the stream through
`streamLoop`; on pause the result is None, else `await handler`. Output
values are assembled per `vizComputeOutputs`; a response chat card is
appended when `has_response`; the modal opens iff the result is None; the
returned events store carries the updated card list but the count field it
had before the loop (the source mutates the list in place through the
`events_list` alias and never writes the dict's count). -/
def runWorkflowCallback (engine : Engine) (prims : ParsePrims)
    (cfg : VizConfig) (selfCtx : Option Ctx) (a : CallbackArgs) :
    Option CallbackOutcome :=
  match a.trigger with
  | Option.none => Option.none
  | some trig =>
    let modalText := a.modalInput.getD ""
    let base :=
      match trig with
      | Trigger.buttonRun =>
        let queryData := collectQueryData prims cfg.inputs a.inputValues
        let chat :=
          if queryData.isEmpty then a.chatMessages
          else a.chatMessages ++ [ChatMsg.user (queryChatContent queryData)]
        ((Option.none : Option Ctx), EventsData.mk [] 0, chat)
      | Trigger.modalSubmit =>
        let chat :=
          if modalText = "" then a.chatMessages
          else a.chatMessages ++ [ChatMsg.user modalText]
        (selfCtx, a.eventsData, chat)
    let runParams := collectRunParams prims cfg.inputs a.inputValues
    let handler := engine runParams base.1
    let injections :=
      if modalText = "" then ([] : List (Ctx × String))
      else [(handler.ctx, modalText)]
    let lp := streamLoop handler.stream base.2.1.events base.2.1.count
    let result : Option Value :=
      if lp.2.2.2 then Option.none else some handler.result
    let outs :=
      match result with
      | Option.none => (([] : List (Option Value)), ([] : List String), false)
      | some res => vizComputeOutputs cfg.outputs res
    some
      { selfCtx := some handler.ctx
        inputClears := cfg.inputs.map fun _ => (Option.none : Option Value)
        outputVals := outs.1
        modalOpen := result.isNone
        chat := if outs.2.2 then base.2.2 ++ [ChatMsg.response outs.2.1] else base.2.2
        eventsData := EventsData.mk lp.2.1 base.2.1.count
        trace := lp.1
        engineCalls := [(runParams, base.1)]
        injections := injections }

/-- The canonical interleaved trace of the event loop over renderable
events: each event is consumed and then immediately pushed (with the log
extended by its card and the counter bumped) before the next event is
consumed. -/
def canonTrace : List WEvent → List Card → Nat → List LoopAct
  | [], _, _ => []
  | e :: rest, acc, n =>
    let c := renderCardEv e
    LoopAct.consume e :: LoopAct.push (EventsData.mk (acc ++ [c]) (n + 1)) ::
      canonTrace rest (acc ++ [c]) (n + 1)

/-- The UI pushes of a trace, in order. -/
def pushesOf (tr : List LoopAct) : List EventsData :=
  tr.filterMap fun a =>
    match a with
    | LoopAct.push d => some d
    | _ => Option.none

/-- Context argument handed to `workflow.run` by the callback: button-run
resets `self._ctx` to None first; modal-submit passes the stored context
through unchanged. -/
def ctxArgOf : Trigger → Option Ctx → Option Ctx
  | Trigger.buttonRun, _ => Option.none
  | Trigger.modalSubmit, c => c

/-- Concrete external primitives used by witnesses: integers parse through
a one-literal table (exactly "42" parses, so "abc" fails both numeric
parsers), JSON never parses (every witness string is non-JSON), and exactly
the string "[record]" parses as a record. -/
def samplePrims : ParsePrims where
  pyIntOfStr s := if s = "42" then some 42 else Option.none
  pyFloatOfStr s := if s = "42" then some ((42 : Int) : Rat) else Option.none
  jsonLoads _ := Option.none
  parseRawRecord s :=
    if s = "[record]" then some (Value.dict [("a", Value.int 1)])
    else Option.none
  strpDate _ := Option.none
  today := (2026, 10, 12)

/-- Concrete schema used by witnesses: one String input "query", the
synthetic single String output "result". -/
def sampleCfg : VizConfig :=
  VizConfig.mk [("query", TypeTag.string)] [("result", TypeTag.string)]

/-- Stub engine that completes immediately: stream `[Stop]`, result "4". -/
def stopEngine : Engine := fun _ _ => Handler.mk 5 [WEvent.stop] (Value.str "4")

/-- Stub engine that always pauses for human input. -/
def pauseEngine : Engine :=
  fun _ _ => Handler.mk 3 [WEvent.inputRequired "p"] (Value.str "")

/-- Stub engine for the pause/resume scenario: a fresh run (no context)
pauses with InputRequired on context 7; a run handed a stored context
resumes on that same context and completes with result "25". -/
def pauseResumeEngine : Engine := fun _ ctx =>
  match ctx with
  | Option.none =>
    Handler.mk 7 [WEvent.inputRequired "Enter a number:"] (Value.str "")
  | some c => Handler.mk c [WEvent.stop] (Value.str "25")

/-- Stub engine streaming three Info events and then Stop. -/
def infoEngine : Engine := fun _ _ =>
  Handler.mk 9
    [WEvent.other "Info" "a", WEvent.other "Info" "b",
     WEvent.other "Info" "c", WEvent.stop]
    (Value.str "done")

/-- Schema of spec Scenario C: outputs {summary: String, chart: Figure}. -/
def c4Cfg : VizConfig :=
  VizConfig.mk [("query", TypeTag.string)]
    [("summary", TypeTag.string), ("chart", TypeTag.figure)]

/-- Stub engine whose result record exposes only `summary`. -/
def c4Engine : Engine := fun _ _ =>
  Handler.mk 11 [WEvent.stop] (Value.obj [("summary", Value.str "hi")])

/-- Callback arguments of the pause step of the pause/resume scenario. -/
def c1Args1 : CallbackArgs :=
  CallbackArgs.mk (some Trigger.buttonRun) [Raw.text "5"] Option.none []
    (EventsData.mk [] 0)

/-- Callback arguments of the resume step: the modal text is "5", and the
query widget meanwhile holds a different value, so re-reading inputs on
resume is observable in the engine call. -/
def c1Args2 : CallbackArgs :=
  CallbackArgs.mk (some Trigger.modalSubmit) [Raw.text "changed"] (some "5")
    [] (EventsData.mk [] 0)

theorem streamLoop_pauses (es : List WEvent) (acc : List Card) (n : Nat) :
    (streamLoop es acc n).2.2.2 = streamPauses es := by
  induction es generalizing acc n with
  | nil => rfl
  | cons e rest ih =>
    cases e with
    | stop => simpa [streamLoop, streamPauses] using ih acc n
    | inputRequired p => rfl
    | other t p => simpa [streamLoop, streamPauses] using ih (acc ++ [renderCardEv (WEvent.other t p)]) (n + 1)

theorem isNone_if_pause (b : Bool) (r : Value) :
    (if b then (Option.none : Option Value) else some r).isNone = b := by
  cases b <;> rfl

/-- C7: `parse_input_value` satisfies the lenient-degrade contract. For
every tag other than Boolean, empty or None raw input yields None (the
field is omitted); Boolean coerces empty and None to `false`; a non-empty
Integer or Float input whose parse fails yields 0 and 0.0; a non-empty
StringList or ObjectMap input that is not valid JSON yields [] and {}. The
embedding is total — the code catches every exception on these paths, so
`parse_input_value` never raises for these tags. -/
theorem parse_input_lenient_degrade (prims : ParsePrims) :
    (∀ tag : TypeTag, tag ≠ TypeTag.boolean →
        parse_input_value prims Raw.absent tag = Option.none ∧
        parse_input_value prims (Raw.text "") tag = Option.none) ∧
    parse_input_value prims Raw.absent TypeTag.boolean =
      some (Value.bool false) ∧
    parse_input_value prims (Raw.text "") TypeTag.boolean =
      some (Value.bool false) ∧
    (∀ s : String, s ≠ "" → prims.pyIntOfStr s = Option.none →
        parse_input_value prims (Raw.text s) TypeTag.integer =
          some (Value.int 0)) ∧
    (∀ s : String, s ≠ "" → prims.pyFloatOfStr s = Option.none →
        parse_input_value prims (Raw.text s) TypeTag.float =
          some (Value.float 0)) ∧
    (∀ s : String, s ≠ "" → prims.jsonLoads s = Option.none →
        parse_input_value prims (Raw.text s) TypeTag.stringList =
          some (Value.list []) ∧
        parse_input_value prims (Raw.text s) TypeTag.objectMap =
          some (Value.dict [])) := by
  refine ⟨fun tag ht => ⟨?_, ?_⟩, ?_, ?_, fun s hs hp => ?_, fun s hs hp => ?_,
    fun s hs hp => ⟨?_, ?_⟩⟩ <;>
    simp [parse_input_value, pyIntOfRaw, pyFloatOfRaw, *]

/-- Witness for C7 at the spec's own test vectors, with the concrete
primitives of `samplePrims` (so "abc" fails numeric parsing and "not json"
fails JSON parsing). -/
theorem parse_input_lenient_degrade_witness :
    ((TypeTag.integer ≠ TypeTag.boolean) ∧ ("abc" : String) ≠ "" ∧
      samplePrims.pyIntOfStr "abc" = Option.none ∧
      samplePrims.pyFloatOfStr "abc" = Option.none ∧
      samplePrims.jsonLoads "not json" = Option.none) ∧
    parse_input_value samplePrims (Raw.text "") TypeTag.integer =
      Option.none ∧
    parse_input_value samplePrims (Raw.text "") TypeTag.boolean =
      some (Value.bool false) ∧
    parse_input_value samplePrims (Raw.text "abc") TypeTag.integer =
      some (Value.int 0) ∧
    parse_input_value samplePrims (Raw.text "abc") TypeTag.float =
      some (Value.float 0) ∧
    parse_input_value samplePrims (Raw.text "not json") TypeTag.stringList =
      some (Value.list []) := by
  refine ⟨⟨by decide, by decide, by decide, by decide, rfl⟩, ?_, ?_, ?_, ?_, ?_⟩
  · exact ((parse_input_lenient_degrade samplePrims).1 TypeTag.integer
      (by decide)).2
  · exact (parse_input_lenient_degrade samplePrims).2.2.1
  · exact (parse_input_lenient_degrade samplePrims).2.2.2.1 "abc" (by decide)
      (by decide)
  · exact (parse_input_lenient_degrade samplePrims).2.2.2.2.1 "abc"
      (by decide) (by decide)
  · exact ((parse_input_lenient_degrade samplePrims).2.2.2.2.2 "not json"
      (by decide) rfl).1

/-- C8: round trip for StructuredRecord. For any serializer and record
satisfying the pydantic contract that parsing the serialized form returns
the record (and the serialized form is non-empty text, as pydantic JSON
always is), `parse_input_value(serialize(record), StructuredRecord)`
returns exactly that record: the controller passes the text through the
empty-input guard and the try/except unchanged. -/
theorem structured_record_round_trip (prims : ParsePrims)
    (serialize : Value → String) (r : Value)
    (hne : serialize r ≠ "")
    (hrt : prims.parseRawRecord (serialize r) = some r) :
    parse_input_value prims (Raw.text (serialize r))
      TypeTag.structuredRecord = some r := by
  simp [parse_input_value, hne, hrt]

/-- Witness for C8: with `samplePrims`, the record {a: 1} serialized as
"[record]" parses back to itself. -/
theorem structured_record_round_trip_witness :
    ((fun _ : Value => "[record]") (Value.dict [("a", Value.int 1)]) ≠ "" ∧
      samplePrims.parseRawRecord
        ((fun _ : Value => "[record]") (Value.dict [("a", Value.int 1)])) =
        some (Value.dict [("a", Value.int 1)])) ∧
    parse_input_value samplePrims
      (Raw.text ((fun _ : Value => "[record]")
        (Value.dict [("a", Value.int 1)])))
      TypeTag.structuredRecord = some (Value.dict [("a", Value.int 1)]) := by
  refine ⟨⟨by decide, rfl⟩, ?_⟩
  exact structured_record_round_trip samplePrims (fun _ => "[record]")
    (Value.dict [("a", Value.int 1)]) (by decide) rfl

/-- C9 counterexample: the output path renders booleans through Python
`str()`, which capitalizes — `formatOutput(true, Boolean)` is the string
"True", not "true" as the claim states. -/
theorem boolean_output_counterexample :
    format_output_value (some (Value.bool true)) TypeTag.boolean =
      some (Value.str "True") ∧
    format_output_value (some (Value.bool true)) TypeTag.boolean ≠
      some (Value.str "true") ∧
    format_output_value (some (Value.bool false)) TypeTag.boolean ≠
      some (Value.str "false") := by
  refine ⟨rfl, fun h => ?_, fun h => ?_⟩
  · have h' : (some (Value.str "True") : Option Value) =
        some (Value.str "true") := h
    injection h' with h1
    injection h1 with h2
    exact absurd h2 (by decide)
  · have h' : (some (Value.str "False") : Option Value) =
        some (Value.str "false") := h
    injection h' with h1
    injection h1 with h2
    exact absurd h2 (by decide)

/-- C9 as amended: for every boolean result value with the Boolean tag, the
read-only text box receives `str(value)`, i.e. the capitalized Python
rendering "True"/"False". -/
theorem boolean_output_capitalized (b : Bool) :
    format_output_value (some (Value.bool b)) TypeTag.boolean =
      some (Value.str (if b then "True" else "False")) := by
  cases b <;> rfl

/-- C10: constructing a Viz with a theme whose lowercase form is not among
the twenty-two THEMES keys fails with `ValueError("Unknown theme: <name>")`
before any UI is built, because `get_external_stylesheets` is evaluated
first in `Viz.__init__`; every known key succeeds case-insensitively. -/
theorem viz_theme_validation :
    (∀ (name : String) (ins outs : List (String × TypeTag)),
        THEMES.lookup (pyLower name) = Option.none →
        viz_init name ins outs =
          Except.error ("Unknown theme: " ++ name)) ∧
    (∀ (name : String) (ins outs : List (String × TypeTag)) (s : String),
        THEMES.lookup (pyLower name) = some s →
        viz_init name ins outs = Except.ok (VizApp.mk [s] name ins outs)) ∧
    THEMES.length = 22 := by
  refine ⟨fun name ins outs h => ?_, fun name ins outs s h => ?_, rfl⟩ <;>
    simp [viz_init, get_external_stylesheets, h]

/-- Witness for C10: "Bogus" is rejected with the error naming it, and the
upper-case "DARKLY" resolves case-insensitively. -/
theorem viz_theme_validation_witness :
    (THEMES.lookup (pyLower "Bogus") = Option.none ∧
      THEMES.lookup (pyLower "DARKLY") = some "dbc.themes.DARKLY") ∧
    viz_init "Bogus" [] [] = Except.error ("Unknown theme: " ++ "Bogus") ∧
    viz_init "DARKLY" [] [] =
      Except.ok (VizApp.mk ["dbc.themes.DARKLY"] "DARKLY" [] []) := by
  refine ⟨⟨rfl, rfl⟩, ?_, ?_⟩
  · exact viz_theme_validation.1 "Bogus" [] [] rfl
  · exact viz_theme_validation.2.1 "DARKLY" [] [] "dbc.themes.DARKLY" rfl

theorem streamLoop_append_stop (es : List WEvent) (acc : List Card) (n : Nat)
    (h : ∀ e ∈ es, e.isRenderable = true) :
    streamLoop (es ++ [WEvent.stop]) acc n =
      (canonTrace es acc n ++ [LoopAct.consume WEvent.stop],
       acc ++ es.map renderCardEv, n + es.length, false) := by
  induction es generalizing acc n with
  | nil => simp [streamLoop, canonTrace]
  | cons e rest ih =>
    cases e with
    | stop =>
      exact absurd (h _ (List.mem_cons_self _ _)) (by simp [WEvent.isRenderable])
    | inputRequired p =>
      exact absurd (h _ (List.mem_cons_self _ _)) (by simp [WEvent.isRenderable])
    | other t p =>
      have hrest : ∀ e ∈ rest, e.isRenderable = true :=
        fun e he => h e (List.mem_cons_of_mem _ he)
      simp [streamLoop, canonTrace, ih _ _ hrest, List.append_assoc]
      omega

theorem pushesOf_canonTrace_length (es : List WEvent) (acc : List Card)
    (n : Nat) : (pushesOf (canonTrace es acc n)).length = es.length := by
  induction es generalizing acc n with
  | nil => rfl
  | cons e rest ih => simp [canonTrace, pushesOf, List.filterMap] at ih ⊢; exact ih _ _

theorem pushesOf_canonTrace_get (es : List WEvent) (acc : List Card)
    (n : Nat) : ∀ i, i < es.length →
      (pushesOf (canonTrace es acc n)).get? i =
        some (EventsData.mk (acc ++ (es.take (i + 1)).map renderCardEv)
          (n + i + 1)) := by
  induction es generalizing acc n with
  | nil => intro i hi; simp at hi
  | cons e rest ih =>
    intro i hi
    cases i with
    | zero => simp [canonTrace, pushesOf, List.filterMap]
    | succ j =>
      have hj : j < rest.length := by simpa using hi
      have := ih (acc ++ [renderCardEv e]) (n + 1) j hj
      simp [canonTrace, pushesOf, List.filterMap] at this ⊢
      rw [this]
      simp [List.append_assoc]
      omega

/-- C6: for a button-run trigger whose execution streams n renderable
(non-terminal, non-InputRequired) events followed by Stop, the returned
event log holds exactly the n rendered events in arrival order, the loop
trace is the canonical interleaving — each event consumed and then pushed
once via `set_props` before the next event is consumed, with the Stop event
consumed last and unpushed — and there are exactly n distinct pushes, the
i-th carrying precisely the first i+1 rendered events (an incremental
prefix, never one end-of-run batch). -/
theorem incremental_push_per_event
    (engine : Engine) (prims : ParsePrims) (cfg : VizConfig)
    (selfCtx : Option Ctx) (vals : List Raw) (modal : Option String)
    (chat : List ChatMsg) (ed : EventsData) (es : List WEvent)
    (hstream : (engine (collectRunParams prims cfg.inputs vals)
        Option.none).stream = es ++ [WEvent.stop])
    (hren : ∀ e ∈ es, e.isRenderable = true) :
    (runWorkflowCallback engine prims cfg selfCtx
        (CallbackArgs.mk (some Trigger.buttonRun) vals modal chat ed)).map
      (fun o => (o.eventsData, o.trace)) =
      some (EventsData.mk (es.map renderCardEv) 0,
            canonTrace es [] 0 ++ [LoopAct.consume WEvent.stop]) ∧
    (pushesOf (canonTrace es [] 0)).length = es.length ∧
    (∀ i, i < es.length →
      (pushesOf (canonTrace es [] 0)).get? i =
        some (EventsData.mk ((es.take (i + 1)).map renderCardEv) (i + 1))) := by
  refine ⟨?_, pushesOf_canonTrace_length es [] 0, fun i hi => ?_⟩
  · have hl := streamLoop_append_stop es [] 0 hren
    simp [runWorkflowCallback, hstream, hl]
  · have := pushesOf_canonTrace_get es [] 0 i hi
    simpa using this

/-- Witness for C6 at spec Scenario D: three Info events "a", "b", "c"
streamed by a stub engine before Stop. -/
theorem incremental_push_per_event_witness :
    ((infoEngine (collectRunParams samplePrims sampleCfg.inputs
        [Raw.text "2"]) Option.none).stream =
      [WEvent.other "Info" "a", WEvent.other "Info" "b",
        WEvent.other "Info" "c"] ++ [WEvent.stop] ∧
      (∀ e ∈ [WEvent.other "Info" "a", WEvent.other "Info" "b",
        WEvent.other "Info" "c"], e.isRenderable = true)) ∧
    ((runWorkflowCallback infoEngine samplePrims sampleCfg Option.none
        (CallbackArgs.mk (some Trigger.buttonRun) [Raw.text "2"] Option.none
          [] (EventsData.mk [] 0))).map
      (fun o => (o.eventsData, o.trace)) =
      some (EventsData.mk
        ([WEvent.other "Info" "a", WEvent.other "Info" "b",
          WEvent.other "Info" "c"].map renderCardEv) 0,
        canonTrace [WEvent.other "Info" "a", WEvent.other "Info" "b",
          WEvent.other "Info" "c"] [] 0 ++ [LoopAct.consume WEvent.stop]) ∧
    (pushesOf (canonTrace [WEvent.other "Info" "a", WEvent.other "Info" "b",
        WEvent.other "Info" "c"] [] 0)).length = 3 ∧
    (∀ i, i < ([WEvent.other "Info" "a", WEvent.other "Info" "b",
        WEvent.other "Info" "c"] : List WEvent).length →
      (pushesOf (canonTrace [WEvent.other "Info" "a", WEvent.other "Info" "b",
          WEvent.other "Info" "c"] [] 0)).get? i =
        some (EventsData.mk
          (([WEvent.other "Info" "a", WEvent.other "Info" "b",
            WEvent.other "Info" "c"].take (i + 1)).map renderCardEv)
          (i + 1)))) := by
  refine ⟨⟨rfl, by decide⟩, ?_⟩
  exact incremental_push_per_event infoEngine samplePrims sampleCfg
    Option.none [Raw.text "2"] Option.none [] (EventsData.mk [] 0)
    [WEvent.other "Info" "a", WEvent.other "Info" "b",
      WEvent.other "Info" "c"] rfl (by decide)

/-- C1 counterexample: in the pause/resume scenario (spec Scenario B), the
pause trigger and the modal resume each invoke `workflow.run` once — two
`startRun` invocations across the pause and resume, not one as claimed —
and the resume call's parameters are re-parsed from the CURRENT input
widgets (here changed to "changed" while the modal was open), so input
fields other than the modal response are re-read on resume. -/
theorem resume_counterexample :
    ((runWorkflowCallback pauseResumeEngine samplePrims sampleCfg
        Option.none c1Args1).bind
      (fun o1 =>
        (runWorkflowCallback pauseResumeEngine samplePrims sampleCfg
            o1.selfCtx c1Args2).map
          (fun o2 =>
            (o1.engineCalls.length + o2.engineCalls.length,
             o2.engineCalls)))) =
      some (2, [([("query", Value.str "changed")], some 7)]) ∧
    (2 : Nat) ≠ 1 := by
  exact ⟨rfl, by decide⟩

/-- C1 as amended: on a modal submit with non-empty text and a stored
context, the controller invokes `workflow.run` exactly once IN THIS
callback, passing the stored context back (so the suspended execution
context is reused and prior state preserved), and injects the submitted
text as a HumanResponseEvent into the resulting handler's context; but the
run parameters it passes are re-parsed from the current input widgets, and
across a pause and a resume `workflow.run` is therefore invoked twice, once
per trigger. -/
theorem resume_reuses_stored_context
    (engine : Engine) (prims : ParsePrims) (cfg : VizConfig) (c : Ctx)
    (vals : List Raw) (t : String) (chat : List ChatMsg) (ed : EventsData)
    (ht : t ≠ "") :
    (runWorkflowCallback engine prims cfg (some c)
        (CallbackArgs.mk (some Trigger.modalSubmit) vals (some t) chat
          ed)).map
      (fun o => (o.engineCalls, o.injections, o.selfCtx)) =
      some ([(collectRunParams prims cfg.inputs vals, some c)],
            [((engine (collectRunParams prims cfg.inputs vals)
                (some c)).ctx, t)],
            some ((engine (collectRunParams prims cfg.inputs vals)
              (some c)).ctx)) := by
  simp [runWorkflowCallback, ht]

/-- Witness for C1's amended statement at the concrete resume step of the
pause/resume scenario. -/
theorem resume_reuses_stored_context_witness :
    (("5" : String) ≠ "") ∧
    (runWorkflowCallback pauseResumeEngine samplePrims sampleCfg (some 7)
        (CallbackArgs.mk (some Trigger.modalSubmit) [Raw.text "changed"]
          (some "5") [] (EventsData.mk [] 0))).map
      (fun o => (o.engineCalls, o.injections, o.selfCtx)) =
      some ([(collectRunParams samplePrims sampleCfg.inputs
              [Raw.text "changed"], some 7)],
            [((pauseResumeEngine (collectRunParams samplePrims
                sampleCfg.inputs [Raw.text "changed"]) (some 7)).ctx, "5")],
            some ((pauseResumeEngine (collectRunParams samplePrims
              sampleCfg.inputs [Raw.text "changed"]) (some 7)).ctx)) := by
  exact ⟨by decide, resume_reuses_stored_context pauseResumeEngine
    samplePrims sampleCfg 7 [Raw.text "changed"] "5" []
    (EventsData.mk [] 0) (by decide)⟩

/-- C2 counterexample: with a pending execution handle (`self._ctx` set)
and a non-empty event log, a new button-run trigger is NOT a no-op: exactly
one fresh `workflow.run` call happens and the event log is reset (length 1
before, 0 after), contradicting both "no new execution starts" and
"eventLog length unchanged". -/
theorem trigger_while_pending_counterexample :
    (runWorkflowCallback stopEngine samplePrims sampleCfg (some 3)
        (CallbackArgs.mk (some Trigger.buttonRun) [Raw.text "2"] Option.none
          [] (EventsData.mk [Card.mk "Info" "old"] 1))).map
      (fun o => (o.engineCalls.length, o.eventsData)) =
      some (1, EventsData.mk [] 0) ∧
    (1 : Nat) ≠ 0 ∧
    EventsData.mk ([] : List Card) 0 ≠ EventsData.mk [Card.mk "Info" "old"] 1 := by
  exact ⟨rfl, by decide, by decide⟩

/-- C2 as amended: a top-level button-run trigger while a pending execution
handle is set is accepted, not ignored — the pending context is discarded
(the engine is called with no context), the event store is reset and then
filled by the new run's stream, and `self._ctx` becomes the new handler's
context. Overlap is prevented only by the UI disabling the run button while
the background callback executes, not by any state-machine guard. -/
theorem trigger_while_pending_starts_fresh_run
    (engine : Engine) (prims : ParsePrims) (cfg : VizConfig) (c : Ctx)
    (vals : List Raw) (modal : Option String) (chat : List ChatMsg)
    (ed : EventsData) :
    (runWorkflowCallback engine prims cfg (some c)
        (CallbackArgs.mk (some Trigger.buttonRun) vals modal chat ed)).map
      (fun o => (o.engineCalls, o.eventsData, o.selfCtx)) =
      some ([(collectRunParams prims cfg.inputs vals, Option.none)],
            EventsData.mk (streamLoop (engine (collectRunParams prims
              cfg.inputs vals) Option.none).stream [] 0).2.1 0,
            some ((engine (collectRunParams prims cfg.inputs vals)
              Option.none).ctx)) := rfl

/-- C3 counterexample: a run that completes with Stop leaves
`pendingExecutionHandle` (`self._ctx`) SET to the finished handler's
context while the modal is closed — so "pendingExecutionHandle is set iff
the most recent event was InputRequired" and "None after the last run
completed with Stop" are both false. -/
theorem pending_handle_counterexample :
    (runWorkflowCallback stopEngine samplePrims sampleCfg Option.none
        (CallbackArgs.mk (some Trigger.buttonRun) [Raw.text "2"] Option.none
          [] (EventsData.mk [] 0))).map
      (fun o => (o.selfCtx, o.modalOpen)) = some (some 5, false) ∧
    (some 5 : Option Ctx) ≠ Option.none := by
  exact ⟨rfl, by decide⟩

/-- C3 as amended: after every completed callback, whatever the trigger,
`self._ctx` equals the (just obtained) handler's context — it is set both
after a pause and after a completed run, and is cleared only transiently at
the start of the next button-run trigger; the modal-open output is true
exactly when the consumed stream pauses with an InputRequiredEvent. -/
theorem pending_handle_retained_modal_tracks_pause
    (engine : Engine) (prims : ParsePrims) (cfg : VizConfig)
    (selfCtx : Option Ctx) (trig : Trigger) (vals : List Raw)
    (modal : Option String) (chat : List ChatMsg) (ed : EventsData) :
    (runWorkflowCallback engine prims cfg selfCtx
        (CallbackArgs.mk (some trig) vals modal chat ed)).map
      (fun o => (o.selfCtx, o.modalOpen)) =
      some (some ((engine (collectRunParams prims cfg.inputs vals)
              (ctxArgOf trig selfCtx)).ctx),
            streamPauses (engine (collectRunParams prims cfg.inputs vals)
              (ctxArgOf trig selfCtx)).stream) := by
  cases trig with
  | buttonRun =>
    simp [runWorkflowCallback, ctxArgOf, streamLoop_pauses]
    cases hsp : streamPauses (engine (collectRunParams prims cfg.inputs
        vals) Option.none).stream <;> simp [hsp]
  | modalSubmit =>
    simp [runWorkflowCallback, ctxArgOf, streamLoop_pauses]
    cases hsp : streamPauses (engine (collectRunParams prims cfg.inputs
        vals) selfCtx).stream <;> simp [hsp]

/-- C5 counterexample: a modal submit with empty text injects no
human-response event and appends nothing to chat, but it is NOT fully
ignored — `workflow.run` is still invoked once (resuming with the stored
context), contradicting "no execution starts or resumes". -/
theorem empty_modal_submit_counterexample :
    (runWorkflowCallback pauseEngine samplePrims sampleCfg (some 3)
        (CallbackArgs.mk (some Trigger.modalSubmit) [Raw.text "2"]
          (some "") [] (EventsData.mk [] 0))).map
      (fun o => (o.injections, o.chat.length, o.engineCalls.length)) =
      some ([], 0, 1) ∧
    (1 : Nat) ≠ 0 := by
  exact ⟨rfl, by decide⟩

theorem chat_append_cases (X : Prop) [Decidable X] (l : List ChatMsg)
    (parts : List String) :
    (if X then l ++ [ChatMsg.response parts] else l) = l ∨
    ∃ p, (if X then l ++ [ChatMsg.response parts] else l) =
      l ++ [ChatMsg.response p] := by
  by_cases h : X
  · exact Or.inr ⟨parts, by simp [h]⟩
  · exact Or.inl (by simp [h])

/-- C5 as amended: on a modal submit with empty (or absent) text, no
human-response event is injected, no user chat card is appended and no
error is reported, but the callback still calls `workflow.run` once with
the re-parsed inputs and the stored context; the transcript either stays
unchanged or — when that run completes with displayable output — gains a
workflow response card. -/
theorem empty_modal_submit_still_runs
    (engine : Engine) (prims : ParsePrims) (cfg : VizConfig)
    (selfCtx : Option Ctx) (vals : List Raw) (modal : Option String)
    (chat : List ChatMsg) (ed : EventsData)
    (hempty : modal.getD "" = "") :
    ∀ o, runWorkflowCallback engine prims cfg selfCtx
        (CallbackArgs.mk (some Trigger.modalSubmit) vals modal chat ed) =
        some o →
      o.injections = [] ∧
      o.engineCalls = [(collectRunParams prims cfg.inputs vals, selfCtx)] ∧
      (o.chat = chat ∨
        ∃ parts, o.chat = chat ++ [ChatMsg.response parts]) := by
  intro o h
  simp [runWorkflowCallback, hempty] at h
  cases h
  exact ⟨rfl, rfl, chat_append_cases _ chat _⟩

/-- Witness for C5's amended statement: empty modal submit against the
always-pausing stub engine. -/
theorem empty_modal_submit_still_runs_witness :
    ((some "" : Option String).getD "" = "") ∧
    (∀ o, runWorkflowCallback pauseEngine samplePrims sampleCfg (some 3)
        (CallbackArgs.mk (some Trigger.modalSubmit) [Raw.text "2"]
          (some "") [] (EventsData.mk [] 0)) = some o →
      o.injections = [] ∧
      o.engineCalls = [(collectRunParams samplePrims sampleCfg.inputs
        [Raw.text "2"], some 3)] ∧
      (o.chat = [] ∨ ∃ parts, o.chat = [] ++ [ChatMsg.response parts])) := by
  exact ⟨rfl, empty_modal_submit_still_runs pauseEngine samplePrims
    sampleCfg (some 3) [Raw.text "2"] (some "") [] (EventsData.mk [] 0) rfl⟩

theorem foldl_vizOutputStep_fst (res : Value) (nOut : Nat)
    (outputs : List (String × TypeTag)) :
    ∀ acc : List (Option Value) × List String × Bool,
      (outputs.foldl (vizOutputStep res nOut) acc).1 =
        acc.1 ++ outputs.map
          (fun p => format_output_value (extractViz res p.1) p.2) := by
  induction outputs with
  | nil => intro acc; simp
  | cons p rest ih =>
    intro acc
    rw [List.foldl_cons, ih]
    cases hov : extractViz res p.1 <;>
      simp [vizOutputStep, hov, List.append_assoc]

/-- C4 counterexample: spec Scenario C run through the streaming controller
(viz.py). The result record exposes only `summary`; the `chart` output
entry is None — the formatted value of a missing field is None, NOT the
result of formatting the whole result record, which for the Figure tag
would be the record itself (pass-through), a different value. -/
theorem whole_record_fallback_counterexample :
    (runWorkflowCallback c4Engine samplePrims c4Cfg Option.none
        (CallbackArgs.mk (some Trigger.buttonRun) [Raw.text "q"] Option.none
          [] (EventsData.mk [] 0))).map (fun o => o.outputVals) =
      some [some (Value.str "hi"), Option.none] ∧
    format_output_value (some (Value.obj [("summary", Value.str "hi")]))
      TypeTag.figure = some (Value.obj [("summary", Value.str "hi")]) ∧
    (Option.none : Option Value) ≠
      some (Value.obj [("summary", Value.str "hi")]) := by
  refine ⟨rfl, rfl, by simp⟩

/-- C4 as amended: in the streaming controller (viz.py), a declared output
field that cannot be located on the result record (neither attribute nor
dict key) formats from None — yielding the empty string for String fields
and None for all others, never throwing; fields that are present format
from their own value. The whole-record fallback the claim describes exists
only in the non-streaming DashBackend (dash_backend.py), where a missing
field formats the entire result record. -/
theorem missing_field_formats_none
    (outputs : List (String × TypeTag)) (res : Value)
    (h : isSingleResult outputs = false) :
    (vizComputeOutputs outputs res).1 =
      outputs.map (fun p => format_output_value (extractViz res p.1) p.2) ∧
    dashOutputValues outputs res =
      outputs.map (fun p =>
        format_output_value (some ((extractViz res p.1).getD res)) p.2) ∧
    (∀ tag, tag ≠ TypeTag.string →
      format_output_value Option.none tag = Option.none) ∧
    format_output_value Option.none TypeTag.string = some (Value.str "") := by
  refine ⟨?_, ?_, fun tag ht => ?_, rfl⟩
  · simp [vizComputeOutputs, h, foldl_vizOutputStep_fst]
  · simp [dashOutputValues, h]
  · simp [format_output_value, ht]

/-- Witness for C4's amended statement at the Scenario C schema and result. -/
theorem missing_field_formats_none_witness :
    (isSingleResult c4Cfg.outputs = false) ∧
    ((vizComputeOutputs c4Cfg.outputs
        (Value.obj [("summary", Value.str "hi")])).1 =
      c4Cfg.outputs.map (fun p => format_output_value
        (extractViz (Value.obj [("summary", Value.str "hi")]) p.1) p.2) ∧
    dashOutputValues c4Cfg.outputs (Value.obj [("summary", Value.str "hi")]) =
      c4Cfg.outputs.map (fun p => format_output_value
        (some ((extractViz (Value.obj [("summary", Value.str "hi")])
          p.1).getD (Value.obj [("summary", Value.str "hi")]))) p.2) ∧
    (∀ tag, tag ≠ TypeTag.string →
      format_output_value Option.none tag = Option.none) ∧
    format_output_value Option.none TypeTag.string =
      some (Value.str "")) := by
  exact ⟨rfl, missing_field_formats_none c4Cfg.outputs
    (Value.obj [("summary", Value.str "hi")]) rfl⟩
